import Mathlib

/-!
Shallow embedding of the repository `simple_data_analysis` (src/processor.py).

This file embeds the operator-tree engine of the repository in Lean and
settles the specification claims against it.

Modelling conventions:
* A Python scalar appearing in this program is a number or a string
  (`Value`).  Python ints are unbounded, so numbers are `Int`.
* A record (one spreadsheet row, produced as a `dict`) is an association
  list from column name to scalar; `alookup` is dict subscript access,
  with `none` standing for the `KeyError` case.
* Python methods mutate objects in place and raise exceptions.  A call to
  `run` is embedded as a function from the old operator state and the
  record to the new operator state paired with an optional raised
  exception (`Op × Option Err`): mutations performed before an exception
  propagates are kept, as in Python.
* `output` methods perform no assignment to `self`, and the stateful
  embedding `Op.outputS` threads the state through explicitly so this can
  be proved rather than assumed.
-/

/-- A scalar value stored in a record cell or used as a condition /
group key: a (unbounded) Python int or a string. -/
inductive Value where
  | num (n : Int)
  | str (s : String)
deriving DecidableEq, Repr

/-- One input row: a finite mapping from column name to scalar,
represented as an association list with distinct keys. -/
abbrev Record := List (String × Value)

/-- Exceptions raised by the embedded code: `KeyError` from a dict
subscript on an absent key, `TypeError` from adding a string to a number
or tuple-unpacking a non-iterable object. -/
inductive Err where
  | keyError (k : String)
  | typeError
deriving DecidableEq, Repr

/-- Dict subscript access `d[k]`: the value at the first matching key, or
`none` (the `KeyError` case) when the key is absent. -/
def alookup {α β : Type} [DecidableEq α] : List (α × β) → α → Option β
  | [], _ => none
  | (k, v) :: rest, key => if k = key then some v else alookup rest key

/-- The state of one operator node (`Matcher`, `Filter`, `Grouper`,
`Summer` in src/processor.py).  Each constructor carries exactly the
fields the Python `__init__` sets: `matcher`/`filter` hold `matches` and
`operators`; `grouper` holds `group_by`, the template `operators` and the
`groups` dict (key → cloned child list, in insertion order); `summer`
holds `var_name` and the running `total` (initially 0). -/
inductive Op where
  | matcher (name : String) (conds : List (String × Value)) (operators : List Op)
  | filter (name : String) (conds : List (String × Value)) (operators : List Op)
  | grouper (name : String) (group_by : String) (operators : List Op)
      (groups : List (Value × List Op))
  | summer (name : String) (var_name : String) (total : Int)
deriving Repr

/-- The AND-match loop shared by `Matcher.run` and `Filter.run`
(src/processor.py lines 52-57 and 85-90): `match` starts `True`; for each
`(label, value)` pair in order, `data[label]` is read (raising `KeyError`
when absent) and compared; on the first inequality the loop breaks with
`match = False`, so later conditions — and their fields — are not
examined.  The `if self.matches:` guard is the empty-list case. -/
def evalAnd (conds : List (String × Value)) (d : Record) : Except Err Bool :=
  match conds with
  | [] => .ok true
  | (label, value) :: rest =>
    match alookup d label with
    | none => .error (.keyError label)
    | some v => if v = value then evalAnd rest d else .ok false

mutual

/-- Method `run(self, data)` of each operator class, as a state transformer.
`matcher`: lines 51-63 — forwards to every child iff the AND-match holds.
`filter`: lines 84-96 — forwards to every child iff the AND-match fails.
`grouper`: lines 118-128 — `data[group_by]` (KeyError when absent); when
the key is new, `deepcopy(self.operators)` is stored for it and the
record runs through that fresh copy (value semantics make the deep copy
the template value itself); otherwise the record runs through the
existing clone for that key.  `summer`: lines 149-161 —
`total += data[var_name]`; `KeyError` from the subscript propagates
(only `TypeError` is caught), a string value is a caught `TypeError`
leaving the total unchanged. -/
def Op.run : Op → Record → Op × Option Err
  | .matcher name conds ops, d =>
    match evalAnd conds d with
    | .error e => (.matcher name conds ops, some e)
    | .ok false => (.matcher name conds ops, none)
    | .ok true =>
      let r := runList ops d
      (.matcher name conds r.1, r.2)
  | .filter name conds ops, d =>
    match evalAnd conds d with
    | .error e => (.filter name conds ops, some e)
    | .ok true => (.filter name conds ops, none)
    | .ok false =>
      let r := runList ops d
      (.filter name conds r.1, r.2)
  | .grouper name gb tmpl groups, d =>
    match alookup d gb with
    | none => (.grouper name gb tmpl groups, some (.keyError gb))
    | some key =>
      if (alookup groups key).isSome then
        let r := runGroups groups key d
        (.grouper name gb tmpl r.1, r.2)
      else
        let r := runList tmpl d
        (.grouper name gb tmpl (groups ++ [(key, r.1)]), r.2)
  | .summer name var total, d =>
    match alookup d var with
    | none => (.summer name var total, some (.keyError var))
    | some (.num n) => (.summer name var (total + n), none)
    | some (.str _) => (.summer name var total, none)

/-- Loop `for operator in <list>: operator.run(data)` — each child in order;
an exception stops the loop, keeping the updates already made. -/
def runList : List Op → Record → List Op × Option Err
  | [], _ => ([], none)
  | o :: os, d =>
    let r := Op.run o d
    match r.2 with
    | some e => (r.1 :: os, some e)
    | none =>
      let rs := runList os d
      (r.1 :: rs.1, rs.2)

/-- In-place update of `self.groups[key]` by running the record through
that key's clone list: only the first entry whose key matches is run and
replaced; every other entry is kept as is. -/
def runGroups : List (Value × List Op) → Value → Record → List (Value × List Op) × Option Err
  | [], _, _ => ([], none)
  | (k, ops) :: rest, key, d =>
    if k = key then
      let r := runList ops d
      ((k, r.1) :: rest, r.2)
    else
      let r := runGroups rest key d
      ((k, ops) :: r.1, r.2)

end

/-- A Python value appearing in an `output()` result: a scalar (the
`total` of a `Summer`) or a dict.  The dict keys occurring in this
program are operator names (strings) and group keys, both scalars; a dict
is its entry list in insertion order. -/
inductive PyVal where
  | scalar (v : Value)
  | dict (entries : List (Value × PyVal))
deriving Repr

/-- The loop body shared by `Matcher.output` and `Filter.output`
(src/processor.py lines 66-68, 99-101):
`for name, operator in self.operators: output[name] = operator.output()`.
Each element of `self.operators` is an `Operator` instance (appended by
`add_operator`), not a pair; no `Operator` class defines iteration, so
the tuple unpacking on the first element raises `TypeError` and the loop
body is never reached.  With no children the loop runs zero times and the
empty dict is returned. -/
def childEntries : List Op → Except Err (List (Value × PyVal))
  | [] => .ok []
  | _ :: _ => .error .typeError

/-- The loop of `Grouper.output` (src/processor.py lines 132-135): for
each group (in insertion order) `output[name] = {}` is set, then
`for item_name, item in group` tuple-unpacks each operator of the clone
list — raising `TypeError` on the first operator of the first non-empty
group, exactly as in `childEntries`.  A group whose clone list is empty
contributes an empty dict. -/
def grouperEntries : List (Value × List Op) → Except Err (List (Value × PyVal))
  | [] => .ok []
  | (k, []) :: rest => (grouperEntries rest).map (fun es => (k, .dict []) :: es)
  | (_, _ :: _) :: _ => .error .typeError

/-- Method `output(self)` of each operator class, embedded statefully: the
result (or raised exception) paired with the state of `self` afterwards.
No `output` method assigns to `self`, so the state component returns the
receiver's fields unchanged.  A successful result is always the 2-tuple
`(self.name, ...)`: `(name, dict of child entries)` for `Matcher`
(lines 65-69) and `Filter` (lines 98-102), `(name, dict of group
entries)` for `Grouper` (lines 130-136), `(name, total)` for `Summer`
(lines 163-164). -/
def Op.outputS : Op → (Except Err (Value × PyVal)) × Op
  | .matcher name conds ops =>
    ((childEntries ops).map (fun es => (.str name, .dict es)), .matcher name conds ops)
  | .filter name conds ops =>
    ((childEntries ops).map (fun es => (.str name, .dict es)), .filter name conds ops)
  | .grouper name gb tmpl groups =>
    ((grouperEntries groups).map (fun es => (.str name, .dict es)), .grouper name gb tmpl groups)
  | .summer name var total =>
    (.ok (.str name, .scalar (.num total)), .summer name var total)

/-- Assignment `d[k] = v` on a Python dict: an existing key keeps its
position and gets the new value, a new key is appended. -/
def dictInsert (d : List (Value × PyVal)) (k : Value) (v : PyVal) : List (Value × PyVal) :=
  if (alookup d k).isSome then d.map (fun e => if e.1 = k then (k, v) else e)
  else d ++ [(k, v)]

/-- The loop of `Processor.output` (src/processor.py lines 194-196):
`for operator in self.operators: name, result = operator.output();
output[name] = result`, threading each operator's state; an exception
from a child's `output()` propagates, leaving the dict built so far
discarded and all operator state unchanged. -/
def collectS : List Op → List (Value × PyVal) → (Except Err (List (Value × PyVal))) × List Op
  | [], acc => (.ok acc, [])
  | o :: rest, acc =>
    let r := Op.outputS o
    match r.1 with
    | .error e => (.error e, r.2 :: rest)
    | .ok (n, res) =>
      let rs := collectS rest (dictInsert acc n res)
      (rs.1, r.2 :: rs.2)

/-- Method `Processor.output` (src/processor.py lines 192-197): collect
`{name: result}` over the root operators, statefully. -/
def Processor.outputS (roots : List Op) : (Except Err (List (Value × PyVal))) × List Op :=
  collectS roots []

/-- Method `Processor.start` (src/processor.py lines 184-190): outer loop over
the records of the data source, inner loop over the root operators; an
uncaught exception aborts the pass, keeping mutations already made. -/
def Processor.start : List Op → List Record → List Op × Option Err
  | ops, [] => (ops, none)
  | ops, r :: rs =>
    let x := runList ops r
    match x.2 with
    | some e => (x.1, some e)
    | none => Processor.start x.1 rs

/-! Helper lemmas about association-list lookup and the group map. -/

theorem alookup_append_left {α β : Type} [DecidableEq α] {l1 : List (α × β)} {k : α}
    {v : β} (l2 : List (α × β)) (h : alookup l1 k = some v) :
    alookup (l1 ++ l2) k = some v := by
  induction l1 with
  | nil => simp [alookup] at h
  | cons p rest ih =>
    obtain ⟨pk, pv⟩ := p
    by_cases hk : pk = k
    · simp [alookup, hk] at h ⊢; exact h
    · simp [alookup, hk] at h ⊢; exact ih h

theorem alookup_append_right {α β : Type} [DecidableEq α] {l1 : List (α × β)} {k : α}
    (l2 : List (α × β)) (h : alookup l1 k = none) :
    alookup (l1 ++ l2) k = alookup l2 k := by
  induction l1 with
  | nil => simp [alookup]
  | cons p rest ih =>
    obtain ⟨pk, pv⟩ := p
    by_cases hk : pk = k
    · simp [alookup, hk] at h
    · simp [alookup, hk] at h ⊢; exact ih h

theorem runGroups_alookup_ne (groups : List (Value × List Op)) (key k : Value)
    (d : Record) (h : k ≠ key) :
    alookup (runGroups groups key d).1 k = alookup groups k := by
  induction groups with
  | nil => simp [runGroups]
  | cons p rest ih =>
    obtain ⟨pk, ops⟩ := p
    by_cases hk : pk = key
    · subst hk
      have hne : pk ≠ k := fun hc => h (hc ▸ rfl)
      simp [runGroups, alookup, hne]
    · by_cases hpk : pk = k
      · subst hpk; simp [runGroups, alookup, h, hk]
      · simp [runGroups, alookup, hk, hpk, ih]

theorem runGroups_alookup_eq (groups : List (Value × List Op)) (key : Value)
    (d : Record) (cur : List Op) (h : alookup groups key = some cur) :
    alookup (runGroups groups key d).1 key = some (runList cur d).1 := by
  induction groups with
  | nil => simp [alookup] at h
  | cons p rest ih =>
    obtain ⟨pk, ops⟩ := p
    by_cases hk : pk = key
    · simp [alookup, hk] at h
      subst h
      simp [runGroups, hk, alookup]
    · simp [alookup, hk] at h
      simp [runGroups, hk, alookup, ih h]

/-- Condition evaluation is total on records containing every configured
field: scanning left to right either finds an inequality (`false`) or
exhausts the list (`true`), but can never hit the `KeyError` branch. -/
theorem evalAnd_ok_of_present (conds : List (String × Value)) (d : Record)
    (h : ∀ p ∈ conds, (alookup d p.1).isSome) :
    ∃ b, evalAnd conds d = .ok b := by
  induction conds with
  | nil => exact ⟨true, rfl⟩
  | cons p rest ih =>
    obtain ⟨label, value⟩ := p
    obtain ⟨v, hv⟩ := Option.isSome_iff_exists.mp (h (label, value) (by simp))
    by_cases he : v = value
    · obtain ⟨b, hb⟩ := ih (fun q hq => h q (by simp [hq]))
      exact ⟨b, by simp [evalAnd, hv, he, hb]⟩
    · exact ⟨false, by simp [evalAnd, hv, he]⟩

/-- No `output` method assigns to `self`: the state component of the
stateful embedding is the receiver unchanged. -/
theorem outputS_state (o : Op) : (Op.outputS o).2 = o := by
  cases o <;> rfl

/-- The collection loop of `Processor.output` returns every root
operator's state unchanged, whatever dict was accumulated so far. -/
theorem collectS_state (ops : List Op) (acc : List (Value × PyVal)) :
    (collectS ops acc).2 = ops := by
  induction ops generalizing acc with
  | nil => rfl
  | cons o rest ih =>
    have ho := outputS_state o
    cases hr : (Op.outputS o).1 with
    | error e => simp [collectS, hr, ho]
    | ok p => obtain ⟨n, res⟩ := p; simp [collectS, hr, ho, ih]

/-- C1: for every `Grouper` whose group field is present in the record
(value `key`), `run` leaves the `name`, `group_by` and template child
list untouched and changes only the `groups` map: every key other than
`key` keeps exactly the clone state it had (independence of sibling
groups and of the template), the first record seen for `key` installs the
template value itself — the deep copy, with whatever initial accumulator
state the template carries — and dispatches the record through it, and
every later record for `key` is dispatched only into the clone already
stored for `key`. -/
theorem grouper_run_clones_and_isolates
    (name gb : String) (tmpl : List Op) (groups : List (Value × List Op))
    (d : Record) (key : Value) (h : alookup d gb = some key) :
    ∃ groups' e,
      Op.run (.grouper name gb tmpl groups) d = (.grouper name gb tmpl groups', e) ∧
      (∀ k, k ≠ key → alookup groups' k = alookup groups k) ∧
      (alookup groups key = none → alookup groups' key = some (runList tmpl d).1) ∧
      (∀ cur, alookup groups key = some cur →
        alookup groups' key = some (runList cur d).1) := by
  cases hg : alookup groups key with
  | none =>
    refine ⟨groups ++ [(key, (runList tmpl d).1)], (runList tmpl d).2, ?_, ?_, ?_, ?_⟩
    · simp [Op.run, h, hg]
    · intro k hk
      cases hgk : alookup groups k with
      | none =>
        rw [alookup_append_right _ hgk]
        simp [alookup, Ne.symm hk]
      | some v => rw [alookup_append_left _ hgk]
    · intro _
      rw [alookup_append_right _ hg]
      simp [alookup]
    · intro cur hcur
      simp at hcur
  | some cur0 =>
    refine ⟨(runGroups groups key d).1, (runGroups groups key d).2, ?_, ?_, ?_, ?_⟩
    · simp [Op.run, h, hg]
    · exact fun k hk => runGroups_alookup_ne groups key k d hk
    · intro hnone
      simp at hnone
    · intro cur hcur
      injection hcur with hc
      subst hc
      exact runGroups_alookup_eq groups key d cur0 hg

/-- Witness for C1: a concrete first record for key "A" on a fresh
`Grouper` with a `Summer` template child. -/
theorem grouper_run_clones_and_isolates_witness :
    ∃ groups' e,
      Op.run (.grouper "g" "dept" [.summer "t" "amt" 0] [])
          [("dept", Value.str "A"), ("amt", Value.num 10)] =
        (.grouper "g" "dept" [.summer "t" "amt" 0] groups', e) ∧
      (∀ k, k ≠ Value.str "A" → alookup groups' k = alookup ([] : List (Value × List Op)) k) ∧
      (alookup ([] : List (Value × List Op)) (Value.str "A") = none →
        alookup groups' (Value.str "A") =
          some (runList [.summer "t" "amt" 0]
            [("dept", Value.str "A"), ("amt", Value.num 10)]).1) ∧
      (∀ cur, alookup ([] : List (Value × List Op)) (Value.str "A") = some cur →
        alookup groups' (Value.str "A") =
          some (runList cur [("dept", Value.str "A"), ("amt", Value.num 10)]).1) :=
  grouper_run_clones_and_isolates "g" "dept" [.summer "t" "amt" 0] []
    [("dept", Value.str "A"), ("amt", Value.num 10)] (Value.str "A") rfl

/-- C2 counterexample: a `Matcher` and a `Filter` each configured with
the single condition `x = 1`, run on the empty record, raise
`KeyError("x")` — a missing condition field is not treated as a
non-match, contrary to the claim. -/
theorem matcher_filter_missing_field_raises_cex :
    (Op.run (.matcher "m" [("x", Value.num 1)] []) []).2 = some (.keyError "x") ∧
    (Op.run (.filter "f" [("x", Value.num 1)] []) []).2 = some (.keyError "x") :=
  ⟨rfl, rfl⟩

/-- C2 (amended): condition evaluation never raises when every configured
field is present in the record; when evaluation does raise (it reaches a
condition whose field is absent — in particular when the first
condition's field is absent), both `Matcher.run` and `Filter.run`
propagate that `KeyError` unchanged, leaving their own state untouched
and invoking no child. -/
theorem matcher_filter_missing_field_keyerror
    (name : String) (conds : List (String × Value)) (ops : List Op) (d : Record) :
    ((∀ p ∈ conds, (alookup d p.1).isSome) → ∃ b, evalAnd conds d = .ok b) ∧
    (∀ e, evalAnd conds d = .error e →
      Op.run (.matcher name conds ops) d = (.matcher name conds ops, some e) ∧
      Op.run (.filter name conds ops) d = (.filter name conds ops, some e)) ∧
    (∀ label value rest, conds = (label, value) :: rest → alookup d label = none →
      evalAnd conds d = .error (.keyError label)) := by
  refine ⟨evalAnd_ok_of_present conds d, ?_, ?_⟩
  · intro e he
    constructor <;> simp [Op.run, he]
  · intro label value rest hc hl
    subst hc
    simp [evalAnd, hl]

/-- Witness for C2 (amended): the propagation conjunct at a concrete
matcher, filter and record. -/
theorem matcher_filter_missing_field_keyerror_witness :
    Op.run (.matcher "m" [("x", Value.num 1)] []) [] =
      (.matcher "m" [("x", Value.num 1)] [], some (.keyError "x")) ∧
    Op.run (.filter "m" [("x", Value.num 1)] []) [] =
      (.filter "m" [("x", Value.num 1)] [], some (.keyError "x")) :=
  (matcher_filter_missing_field_keyerror "m" [("x", Value.num 1)] [] []).2.1
    (.keyError "x") rfl

/-- C3 counterexample: a `Summer` on field "amt" run on the empty record
raises `KeyError("amt")` — an absent field is not a silent no-op,
contrary to the claim (the `except TypeError` clause does not catch the
`KeyError` from the dict subscript). -/
theorem summer_missing_field_raises_cex :
    Op.run (.summer "s" "amt" 0) [] = (.summer "s" "amt" 0, some (.keyError "amt")) :=
  rfl

/-- C3 (amended): a numeric value at the configured field is added to the
running total; a present but non-numeric (string) value leaves the total
unchanged and raises nothing (the `TypeError` from the addition is
caught); an absent field raises `KeyError`, leaving the total
unchanged. -/
theorem summer_run_skips_nonnumeric_raises_missing
    (name var : String) (total : Int) (d : Record) :
    (alookup d var = none →
      Op.run (.summer name var total) d = (.summer name var total, some (.keyError var))) ∧
    (∀ n, alookup d var = some (.num n) →
      Op.run (.summer name var total) d = (.summer name var (total + n), none)) ∧
    (∀ s, alookup d var = some (.str s) →
      Op.run (.summer name var total) d = (.summer name var total, none)) := by
  refine ⟨fun h => by simp [Op.run, h], fun n h => by simp [Op.run, h],
    fun s h => by simp [Op.run, h]⟩

/-- Witness for C3 (amended): a concrete non-numeric value is skipped
without an error and without changing the total. -/
theorem summer_run_skips_nonnumeric_raises_missing_witness :
    Op.run (.summer "s" "amt" 7) [("amt", Value.str "x")] = (.summer "s" "amt" 7, none) :=
  (summer_run_skips_nonnumeric_raises_missing "s" "amt" 7 [("amt", Value.str "x")]).2.2
    "x" rfl

/-- C4: `Matcher.output` and `Filter.output` raise `TypeError` as soon as
the child list is non-empty (each child `Operator` gets tuple-unpacked as
if it were a name/operator pair), so `output()` does not return the
claimed `(name, {child.name: result})` mapping; with no children it
returns `(name, {})`. -/
theorem matcher_filter_output_raises_on_children :
    (Op.outputS (.matcher "m" [] [.summer "s" "amt" 0])).1 = .error .typeError ∧
    (Op.outputS (.filter "f" [] [.summer "s" "amt" 0])).1 = .error .typeError ∧
    (Op.outputS (.matcher "m" [] [])).1 = .ok (.str "m", .dict []) ∧
    (Op.outputS (.filter "f" [] [])).1 = .ok (.str "f", .dict []) :=
  ⟨rfl, rfl, rfl, rfl⟩

/-- C5: `Grouper.output` raises `TypeError` as soon as some group's clone
list is non-empty (each cloned child gets tuple-unpacked), so `output()`
fails in exactly the situation — at least one group with at least one
child — in which the claim says it succeeds; a group with an empty clone
list contributes an empty dict. -/
theorem grouper_output_raises_on_group_children :
    (Op.outputS (.grouper "g" "dept" [.summer "s" "amt" 0]
        [(.str "A", [.summer "s" "amt" 10])])).1 = .error .typeError ∧
    (Op.outputS (.grouper "g" "dept" [] [(.str "A", [])])).1 =
      .ok (.str "g", .dict [(.str "A", .dict [])]) :=
  ⟨rfl, rfl⟩

/-- The concrete `Grouper` of C6: group by "dept", template child a
`Summer` over "amt" starting at 0. -/
def c6grouper : Op := .grouper "group" "dept" [.summer "total" "amt" 0] []

/-- First C6 record: dept "A", amt 10. -/
def c6rec1 : Record := [("dept", .str "A"), ("amt", .num 10)]

/-- Second C6 record: dept "A", amt 5. -/
def c6rec2 : Record := [("dept", .str "A"), ("amt", .num 5)]

/-- Third C6 record: dept "B", amt 7. -/
def c6rec3 : Record := [("dept", .str "B"), ("amt", .num 7)]

/-- C6: running the two "A" records through the `Grouper` yields group
"A" with Sum total 15 (and no error); the further "B" record creates a
new group "B" with total 7 while group "A" stays at 15 and the template
child stays at its initial state. -/
theorem grouper_sum_dept_scenario :
    (Op.run c6grouper c6rec1).2 = none ∧
    (Op.run (Op.run c6grouper c6rec1).1 c6rec2).2 = none ∧
    (Op.run (Op.run c6grouper c6rec1).1 c6rec2).1 =
      .grouper "group" "dept" [.summer "total" "amt" 0]
        [(.str "A", [.summer "total" "amt" 15])] ∧
    (Op.run (Op.run (Op.run c6grouper c6rec1).1 c6rec2).1 c6rec3).2 = none ∧
    (Op.run (Op.run (Op.run c6grouper c6rec1).1 c6rec2).1 c6rec3).1 =
      .grouper "group" "dept" [.summer "total" "amt" 0]
        [(.str "A", [.summer "total" "amt" 15]),
         (.str "B", [.summer "total" "amt" 7])] :=
  ⟨rfl, rfl, rfl, rfl, rfl⟩

/-- C7: a `Matcher` with an empty condition list always takes the
forwarding branch: its state becomes the child list with the record run
through every child in order (`runList`), and the loop's outcome is
exactly `runList`'s — identity pass-through of the record to the
children. -/
theorem matcher_empty_conds_forwards_all (name : String) (ops : List Op) (d : Record) :
    Op.run (.matcher name [] ops) d =
      (.matcher name [] (runList ops d).1, (runList ops d).2) :=
  rfl

/-- C8: a `Filter` with an empty condition list never forwards: the
vacuous AND-match is true, so `run` returns with every child — and the
filter itself — completely unchanged and no error. -/
theorem filter_empty_conds_never_forwards (name : String) (ops : List Op) (d : Record) :
    Op.run (.filter name [] ops) d = (.filter name [] ops, none) :=
  rfl

/-- C9: `output` of every operator and `output` of the `Processor` are
read-only and idempotent: the stateful embedding returns the operator
states (conditions, totals, group maps, child lists) unchanged, and a
second call on the state left by the first returns the identical
result. -/
theorem output_readonly_idempotent (o : Op) (roots : List Op) :
    (Op.outputS o).2 = o ∧
    (Op.outputS ((Op.outputS o).2)).1 = (Op.outputS o).1 ∧
    (Processor.outputS roots).2 = roots ∧
    (Processor.outputS ((Processor.outputS roots).2)).1 = (Processor.outputS roots).1 := by
  refine ⟨outputS_state o, by rw [outputS_state o], collectS_state roots [], ?_⟩
  rw [show (Processor.outputS roots).2 = roots from collectS_state roots []]

/-- C10: on a record containing every field named in the condition list,
`Matcher` and `Filter` with that same list are exact complements: the
AND-match evaluates without error to some boolean `b`; the matcher
forwards to its children (running them in order) exactly when `b` is
true, and the filter forwards exactly when `b` is false. -/
theorem matcher_filter_complementary
    (conds : List (String × Value)) (d : Record)
    (h : ∀ p ∈ conds, (alookup d p.1).isSome) :
    ∃ b : Bool, evalAnd conds d = .ok b ∧
      ∀ (name : String) (ops ops2 : List Op),
        Op.run (.matcher name conds ops) d =
          (if b then .matcher name conds (runList ops d).1 else .matcher name conds ops,
           if b then (runList ops d).2 else none) ∧
        Op.run (.filter name conds ops2) d =
          (if b then .filter name conds ops2 else .filter name conds (runList ops2 d).1,
           if b then none else (runList ops2 d).2) := by
  obtain ⟨b, hb⟩ := evalAnd_ok_of_present conds d h
  refine ⟨b, hb, fun name ops ops2 => ?_⟩
  cases b <;> simp [Op.run, hb]

/-- Witness for C10: the singleton condition `x = 1` on a record where
`x` is 1 — the matcher forwards, the filter does not. -/
theorem matcher_filter_complementary_witness :
    ∃ b : Bool, evalAnd [("x", Value.num 1)] [("x", Value.num 1)] = .ok b ∧
      ∀ (name : String) (ops ops2 : List Op),
        Op.run (.matcher name [("x", Value.num 1)] ops) [("x", Value.num 1)] =
          (if b then .matcher name [("x", Value.num 1)] (runList ops [("x", Value.num 1)]).1
           else .matcher name [("x", Value.num 1)] ops,
           if b then (runList ops [("x", Value.num 1)]).2 else none) ∧
        Op.run (.filter name [("x", Value.num 1)] ops2) [("x", Value.num 1)] =
          (if b then .filter name [("x", Value.num 1)] ops2
           else .filter name [("x", Value.num 1)] (runList ops2 [("x", Value.num 1)]).1,
           if b then none else (runList ops2 [("x", Value.num 1)]).2) :=
  matcher_filter_complementary [("x", Value.num 1)] [("x", Value.num 1)] (by decide)
